import Mathlib

/-!
Verification of the RES-Q call-interface client
(src/hackumass-frontend/src/components/CallInterfaceClean.tsx) against its
natural-language specification.  The component's event handlers are embedded
shallowly: each handler becomes a total Lean function from its inputs (the
event data and the observed outcome of every network call it performs) to the
state it leaves behind and the trace of externally visible actions it emits.
Binary audio blobs are modelled as byte lists; JavaScript string truthiness
(the empty string is falsy) is made explicit.
-/

namespace ResQ

/-- Truthiness of a JavaScript string: a string is truthy iff it is non-empty.
Absent fields are modelled as the empty string, matching the source's
defaulting idiom (field or field2 or emptyString). -/
def strTruthy (s : String) : Bool := s ≠ ""

/-- One multipart upload request issued to the upload endpoint: the filename
given to the form part and the binary payload, as in
fd.append of audio, chunk and a filename. -/
structure UploadCall where
  filename : String
  payload : List Nat
  deriving DecidableEq, Repr

/-- The outcome of one fetch to the upload endpoint as observed by the
handler that awaited it: the promise rejected (network error), the response
had a non-2xx status (res.ok false), the body failed to parse as JSON, or it
succeeded with a reply field and an audio url field (absent modelled as ""). -/
inductive FetchOutcome where
  | netError
  | httpError (status : Nat)
  | badJson
  | ok (reply : String) (audio_url : String)
  deriving DecidableEq, Repr

/-- What one recorder event handler invocation leaves behind: the new chunk
buffer (chunksRef.current), the upload requests it issued, and the response
text it set, if any. -/
structure HandlerResult where
  buf : List (List Nat)
  uploads : List UploadCall
  setResp : Option String
  deriving DecidableEq, Repr

/-- Shallow embedding of mr.ondataavailable (CallInterfaceClean.tsx lines
93-123).  A null or size-zero chunk returns early.  Otherwise the chunk is
pushed onto chunksRef.current and uploaded once under the filename
chunk.webm.  A rejected fetch is caught by the surrounding catch, a non-2xx
response returns after a warning, a JSON parse failure is caught; in every
failure case the handler ends with no retry and no state change beyond the
buffer push.  On success a truthy reply sets the response text.  (Audio
playback of data.audio_url is fire-and-forget and not modelled.) -/
def ondataavailable (data : Option (List Nat)) (outcome : FetchOutcome)
    (buf : List (List Nat)) : HandlerResult :=
  match data with
  | none => ⟨buf, [], none⟩
  | some chunk =>
    if chunk.length = 0 then ⟨buf, [], none⟩
    else
      let buf2 := buf ++ [chunk]
      let call : UploadCall := ⟨"chunk.webm", chunk⟩
      match outcome with
      | .netError => ⟨buf2, [call], none⟩
      | .httpError _ => ⟨buf2, [call], none⟩
      | .badJson => ⟨buf2, [call], none⟩
      | .ok reply _ => ⟨buf2, [call], if strTruthy reply then some reply else none⟩

/-- Shallow embedding of mr.onstop (CallInterfaceClean.tsx lines 126-150).
With an empty chunk buffer the handler returns early and issues no upload.
Otherwise it concatenates the buffered chunks into one blob and uploads it
once under the filename recording_final.webm; a non-2xx status throws, and
every failure is caught and logged.  The finally block clears
chunksRef.current in all cases. -/
def onstop (outcome : FetchOutcome) (buf : List (List Nat)) : HandlerResult :=
  if buf.length = 0 then ⟨buf, [], none⟩
  else
    let blob := buf.flatten
    let call : UploadCall := ⟨"recording_final.webm", blob⟩
    match outcome with
    | .ok reply _ => ⟨[], [call], if strTruthy reply then some reply else none⟩
    | _ => ⟨[], [call], none⟩

/-- One timed dataavailable event during a recording session: the blob the
recorder delivered (none models a null ev.data) together with the outcome of
the upload fetch the handler performs for it. -/
structure FragEvent where
  data : Option (List Nat)
  outcome : FetchOutcome
  deriving DecidableEq, Repr

/-- Folds ondataavailable over the session's timed events, threading the
chunk buffer and collecting the upload trace in order. -/
def runFragments (events : List FragEvent) (buf : List (List Nat)) :
    List (List Nat) × List UploadCall :=
  match events with
  | [] => (buf, [])
  | e :: rest =>
    let r := ondataavailable e.data e.outcome buf
    let p := runFragments rest r.buf
    (p.1, r.uploads ++ p.2)

/-- The non-empty fragments among a session's timed events, in capture
order: exactly the blobs ondataavailable pushes onto the buffer. -/
def capturedFrags (events : List FragEvent) : List (List Nat) :=
  (events.filterMap (fun e => e.data)).filter (fun c => c.length != 0)

/-- End state of one recording session: the chunk buffer it leaves behind
and the full upload trace it produced. -/
structure SessionResult where
  buf : List (List Nat)
  uploads : List UploadCall
  deriving DecidableEq, Repr

/-- Runs one recording session starting from the given chunk buffer: all
timed dataavailable events, then the onstop finalize step with the given
outcome for its upload fetch. -/
def runSessionFrom (buf0 : List (List Nat)) (events : List FragEvent)
    (stopOutcome : FetchOutcome) : SessionResult :=
  let p := runFragments events buf0
  let r := onstop stopOutcome p.1
  ⟨r.buf, p.2 ++ r.uploads⟩

/-- The upload trace of one recording session started on a fresh (empty)
chunk buffer. -/
def runSession (events : List FragEvent) (stopOutcome : FetchOutcome) :
    List UploadCall :=
  (runSessionFrom [] events stopOutcome).uploads

/-- The upload call issued for one periodic fragment. -/
def chunkCall (c : List Nat) : UploadCall := ⟨"chunk.webm", c⟩

/-- Client UI state touched by the polling channel: the visible response
text and the speaking indicator. -/
structure UIState where
  response : String
  isAISpeaking : Bool
  deriving DecidableEq, Repr

/-- Externally visible actions of one poll tick: a response-text update, a
speaking-indicator update, and the setTimeout that schedules the indicator
to be cleared after the given number of milliseconds. -/
inductive UIEvent where
  | setResponse (s : String)
  | setSpeaking (b : Bool)
  | scheduleSpeakingClear (ms : Nat)
  deriving DecidableEq, Repr

/-- The outcome of one poll fetch of the latest-response endpoint: the
promise rejected, the response was non-2xx (res.ok false), the body failed
to parse as JSON, or it succeeded carrying a last response field and a reply
field (absent modelled as ""). -/
inductive PollOutcome where
  | netError
  | httpError (status : Nat)
  | badJson
  | ok (last_response : String) (reply : String)
  deriving DecidableEq, Repr

/-- Whether a poll outcome is one of the failure cases. -/
def isPollFailure : PollOutcome → Bool
  | .netError => true
  | .httpError _ => true
  | .badJson => true
  | .ok _ _ => false

/-- Shallow embedding of one tick of the polling interval
(CallInterfaceClean.tsx lines 18-32).  A rejected fetch is caught and
logged; a non-2xx response returns early; a JSON parse failure is caught.
On success the handler coalesces the last response field with the reply
field; a truthy result sets the response text, sets the speaking indicator,
and schedules it to be cleared after 1800 ms; a falsy result changes
nothing. -/
def pollTick (outcome : PollOutcome) (st : UIState) : UIState × List UIEvent :=
  match outcome with
  | .netError => (st, [])
  | .httpError _ => (st, [])
  | .badJson => (st, [])
  | .ok lr r =>
    let last := if strTruthy lr then lr else r
    if strTruthy last then
      (⟨last, true⟩,
        [UIEvent.setResponse last, UIEvent.setSpeaking true,
          UIEvent.scheduleSpeakingClear 1800])
    else (st, [])

/-- Callback of the setTimeout scheduled by the poll handler: it clears the
speaking indicator. -/
def speakingClearCallback (st : UIState) : UIState := ⟨st.response, false⟩

/-- Runs the polling loop over a list of tick outcomes, threading the UI
state and concatenating the event traces; the interval stays scheduled
across ticks, so every outcome in the list is processed. -/
def pollLoop (outs : List PollOutcome) (st : UIState) : UIState × List UIEvent :=
  match outs with
  | [] => (st, [])
  | o :: rest =>
    let p := pollTick o st
    let q := pollLoop rest p.1
    (q.1, p.2 ++ q.2)

/-- A raw geolocation object as read from JSON, with absent string fields
modelled as "". -/
structure GeoRaw where
  city : String
  city_name : String
  regionName : String
  region : String
  country : String
  deriving DecidableEq, Repr

/-- The geo object with every field absent, as produced by the source's
fallback to an empty object literal. -/
def emptyGeo : GeoRaw := ⟨"", "", "", "", ""⟩

/-- Field coalescing geo.city or geo.city_name or the empty string. -/
def cityOf (g : GeoRaw) : String := if strTruthy g.city then g.city else g.city_name

/-- Field coalescing geo.regionName or geo.region or the empty string. -/
def regionOf (g : GeoRaw) : String := if strTruthy g.regionName then g.regionName else g.region

/-- Field coalescing geo.country or the empty string. -/
def countryOf (g : GeoRaw) : String := g.country

/-- The list built as city, region, country filtered by truthiness, exactly
as the source builds parts before joining with a comma. -/
def geoParts (g : GeoRaw) : List String :=
  [cityOf g, regionOf g, countryOf g].filter (fun s => strTruthy s)

/-- A parsed cached info object: its optional geolocation sub-object, and
the object itself read as a geo record (used when geolocation is absent,
mirroring info.geolocation or info). -/
structure IpInfo where
  geolocation : Option GeoRaw
  self : GeoRaw
  deriving DecidableEq, Repr

/-- The effective geo object of a cached record: info.geolocation or info. -/
def effectiveGeo (info : IpInfo) : GeoRaw := info.geolocation.getD info.self

/-- The cached session-storage state at mount: no stored value, a stored
value on which JSON.parse throws, or a parsed record. -/
inductive CachedRaw where
  | absent
  | malformed
  | value (info : IpInfo)
  deriving DecidableEq, Repr

/-- A successful payload of the IP endpoint: optional geolocation and
location info objects and the two IP fields, absent modelled as "". -/
structure IpPayload where
  geolocation : Option GeoRaw
  location_info : Option GeoRaw
  public_ip : String
  ip : String
  deriving DecidableEq, Repr

/-- The effective geo object of a remote payload: data.geolocation or
data.location_info or the empty object. -/
def payloadGeo (p : IpPayload) : GeoRaw :=
  p.geolocation.getD (p.location_info.getD emptyGeo)

/-- The effective raw IP of a remote payload: data.public_ip or data.ip or
the empty string. -/
def payloadIp (p : IpPayload) : String :=
  if strTruthy p.public_ip then p.public_ip else p.ip

/-- The outcome of the remote IP lookup: rejected fetch, non-2xx status
(which the source turns into a thrown error), malformed JSON body, or a
parsed payload. -/
inductive RemoteOutcome where
  | netError
  | httpError (status : Nat)
  | badJson
  | ok (payload : IpPayload)
  deriving DecidableEq, Repr

/-- Whether a remote lookup outcome is one of the failure cases. -/
def remoteIsFailure : RemoteOutcome → Bool
  | .netError => true
  | .httpError _ => true
  | .badJson => true
  | .ok _ => false

/-- Shallow embedding of the async remote branch of the location effect
(CallInterfaceClean.tsx lines 53-68): on any failure the catch sets the
string Location unavailable; on success it joins the truthy geo fields with
a comma, falling back to the raw IP, and failing that to the string Unknown
location. -/
def remoteBranch (out : RemoteOutcome) : String :=
  match out with
  | .ok p =>
    let parts := geoParts (payloadGeo p)
    if parts.length ≠ 0 then String.intercalate ", " parts
    else if strTruthy (payloadIp p) then payloadIp p else "Unknown location"
  | _ => "Location unavailable"

/-- Shallow embedding of the whole location effect (CallInterfaceClean.tsx
lines 36-68): the final displayed location string, given the cached
session-storage state and the outcome the remote lookup would have.  A
parsed cached record whose parts list is non-empty is displayed and the
effect returns before the remote lookup is started; otherwise (no cache,
parse failure, or an all-empty record) the remote branch decides. -/
def resolveLocation (cache : CachedRaw) (remote : RemoteOutcome) : String :=
  match cache with
  | .value info =>
    let parts := geoParts (effectiveGeo info)
    if parts.length ≠ 0 then String.intercalate ", " parts
    else remoteBranch remote
  | _ => remoteBranch remote

/-- Externally visible actions of ending a call or stopping recording. -/
inductive EndAction where
  | stopListeningRequest
  | stopLocalRecording
  | uiIdle
  deriving DecidableEq, Repr

/-- Shallow embedding of handleEnd (CallInterfaceClean.tsx lines 71-78): it
awaits a stop-listening POST inside a try whose catch only logs, then calls
onEndCall, which the host application implements by unmounting the call
interface (UI back to idle).  The emitted action trace is the same for
every outcome of the stop-listening fetch. -/
def handleEnd (stopOutcome : FetchOutcome) : List EndAction :=
  match stopOutcome with
  | _ => [EndAction.stopListeningRequest, EndAction.uiIdle]

/-- State of the media recorder as seen by stopRecording. -/
inductive RecorderState where
  | inactive
  | recording
  | paused
  deriving DecidableEq, Repr

/-- Shallow embedding of stopRecording (CallInterfaceClean.tsx lines
161-169): if a recorder exists and is not inactive it is stopped; the
recording flag is always set to false.  This function is invoked only by
the record toggle button, not by handleEnd. -/
def stopRecording (mr : Option RecorderState) : List EndAction × Bool :=
  match mr with
  | some s =>
    if s ≠ RecorderState.inactive then ([EndAction.stopLocalRecording], false)
    else ([], false)
  | none => ([], false)

theorem ondataavailable_nonempty (c : List Nat) (hc : ¬ c.length = 0)
    (o : FetchOutcome) (buf : List (List Nat)) :
    ondataavailable (some c) o buf =
      ⟨buf ++ [c], [chunkCall c],
        match o with
        | .ok reply _ => if strTruthy reply then some reply else none
        | _ => none⟩ := by
  cases o <;> simp [ondataavailable, hc, chunkCall]

theorem runFragments_spec (events : List FragEvent) (buf : List (List Nat)) :
    runFragments events buf =
      (buf ++ capturedFrags events, (capturedFrags events).map chunkCall) := by
  induction events generalizing buf with
  | nil => simp [runFragments, capturedFrags]
  | cons e rest ih =>
    obtain ⟨d, o⟩ := e
    cases d with
    | none =>
      simp [runFragments, ondataavailable, capturedFrags] at *
      simp [ih]
    | some c =>
      by_cases hc : c.length = 0
      · have hne : (c.length != 0) = false := by simp [hc]
        simp [runFragments, ondataavailable, hc, capturedFrags, hne, ih]
      · have hne : (c.length != 0) = true := by simp [hc]
        simp [runFragments, ondataavailable_nonempty c hc, capturedFrags, hne, ih]

theorem onstop_buf_empty (o : FetchOutcome) (buf : List (List Nat)) :
    (onstop o buf).buf = [] := by
  by_cases h : buf.length = 0
  · simp [onstop, h, List.length_eq_zero.mp h]
  · cases o <;> simp [onstop, h]

theorem onstop_nonempty (o : FetchOutcome) (buf : List (List Nat))
    (h : buf ≠ []) :
    (onstop o buf).uploads = [⟨"recording_final.webm", buf.flatten⟩] := by
  have hl : ¬ buf.length = 0 := by simpa using h
  cases o <;> simp [onstop, hl]

theorem runSessionFrom_buf (buf0 : List (List Nat)) (events : List FragEvent)
    (stopOutcome : FetchOutcome) :
    (runSessionFrom buf0 events stopOutcome).buf = [] := by
  simp [runSessionFrom, onstop_buf_empty]

theorem runSessionFrom_empty_spec (events : List FragEvent)
    (stopOutcome : FetchOutcome) (h : capturedFrags events ≠ []) :
    (runSessionFrom [] events stopOutcome).uploads =
      (capturedFrags events).map chunkCall ++
        [⟨"recording_final.webm", (capturedFrags events).flatten⟩] := by
  unfold runSessionFrom
  rw [runFragments_spec]
  simp [onstop_nonempty stopOutcome _ h]

/-- C1 counterexample: in a recording session whose only timed event
carries a size-zero blob, zero non-empty timed fragments are emitted (N is
zero), and the client issues zero upload calls rather than N plus one: the
finalize step returns early on the empty chunk buffer, so no final upload
is issued either. -/
theorem c1_counterexample :
    capturedFrags [⟨some [], FetchOutcome.netError⟩] = [] ∧
    runSession [⟨some [], FetchOutcome.netError⟩] FetchOutcome.netError = [] ∧
    (runSession [⟨some [], FetchOutcome.netError⟩] FetchOutcome.netError).length ≠
      (capturedFrags [⟨some [], FetchOutcome.netError⟩]).length + 1 := by
  refine ⟨rfl, rfl, by decide⟩

/-- C1 (amended): for every recording session in which at least one
non-empty timed fragment is emitted before capture stops, the client issues
exactly N plus one upload calls, N being the number of non-empty timed
fragments: one upload per fragment with filename chunk.webm, in capture
order, plus one final upload with filename recording_final.webm whose
payload is the concatenation of all captured fragments of that session.  A
session with zero non-empty fragments issues no upload at all. -/
theorem c1_session_uploads (events : List FragEvent)
    (stopOutcome : FetchOutcome) (h : capturedFrags events ≠ []) :
    runSession events stopOutcome =
      (capturedFrags events).map chunkCall ++
        [⟨"recording_final.webm", (capturedFrags events).flatten⟩] ∧
    (runSession events stopOutcome).length = (capturedFrags events).length + 1 := by
  have h1 : runSession events stopOutcome =
      (capturedFrags events).map chunkCall ++
        [⟨"recording_final.webm", (capturedFrags events).flatten⟩] :=
    runSessionFrom_empty_spec events stopOutcome h
  exact ⟨h1, by simp [h1]⟩

/-- C1 witness: a concrete session with one non-empty fragment issues
exactly two uploads, the fragment upload then the final upload. -/
theorem c1_session_uploads_witness :
    runSession [⟨some [7], FetchOutcome.ok "" ""⟩] FetchOutcome.netError =
      (capturedFrags [⟨some [7], FetchOutcome.ok "" ""⟩]).map chunkCall ++
        [⟨"recording_final.webm",
          (capturedFrags [⟨some [7], FetchOutcome.ok "" ""⟩]).flatten⟩] ∧
    (runSession [⟨some [7], FetchOutcome.ok "" ""⟩] FetchOutcome.netError).length =
      (capturedFrags [⟨some [7], FetchOutcome.ok "" ""⟩]).length + 1 :=
  c1_session_uploads [⟨some [7], FetchOutcome.ok "" ""⟩] FetchOutcome.netError
    (by decide)

/-- C4: a failed fragment upload is absorbed inside that fragment's
handler, which is a total function: the periodic upload trace equals one
chunk.webm call per non-empty fragment in capture order, and the trace does
not depend on any fetch outcome, so a failed fragment is never re-uploaded
and never prevents a later fragment's upload attempt. -/
theorem c4_fragment_failure_isolated (events pre post : List FragEvent)
    (c : List Nat) (o o2 : FetchOutcome) (buf : List (List Nat)) :
    (runFragments events buf).2 = (capturedFrags events).map chunkCall ∧
    (runFragments (pre ++ [⟨some c, o⟩] ++ post) buf).2 =
      (runFragments (pre ++ [⟨some c, o2⟩] ++ post) buf).2 := by
  constructor
  · rw [runFragments_spec]
  · rw [runFragments_spec, runFragments_spec]
    simp [capturedFrags]

/-- C9: a null timed fragment and a size-zero timed fragment are never
uploaded and never added to the chunk buffer, and stopping with an empty
chunk buffer issues no final upload at all. -/
theorem c9_empty_fragments_skipped (outcome : FetchOutcome)
    (buf : List (List Nat)) (chunk : List Nat) :
    ondataavailable none outcome buf = ⟨buf, [], none⟩ ∧
    (chunk.length = 0 →
      ondataavailable (some chunk) outcome buf = ⟨buf, [], none⟩) ∧
    onstop outcome [] = ⟨[], [], none⟩ := by
  refine ⟨rfl, fun h => by simp [ondataavailable, h], ?_⟩
  cases outcome <;> rfl

/-- C9 witness: the skip behavior at a concrete null fragment, a concrete
empty fragment and a concrete stop on an empty buffer. -/
theorem c9_empty_fragments_skipped_witness :
    ondataavailable none FetchOutcome.netError [] = ⟨[], [], none⟩ ∧
    ondataavailable (some []) FetchOutcome.netError [] = ⟨[], [], none⟩ ∧
    onstop FetchOutcome.netError [] = ⟨[], [], none⟩ :=
  ⟨(c9_empty_fragments_skipped FetchOutcome.netError [] []).1,
    (c9_empty_fragments_skipped FetchOutcome.netError [] []).2.1 rfl,
    (c9_empty_fragments_skipped FetchOutcome.netError [] []).2.2⟩

/-- C10: the finalize step clears the chunk buffer for every outcome of
the final upload, a subsequent session therefore behaves exactly as one
started on a fresh buffer, and its final upload concatenates only the
fragments captured in that later session. -/
theorem c10_buffer_cleared (outcome : FetchOutcome)
    (buf s1buf : List (List Nat)) (s1events s2events : List FragEvent)
    (s1stop s2stop : FetchOutcome) :
    (onstop outcome buf).buf = [] ∧
    runSessionFrom (runSessionFrom s1buf s1events s1stop).buf s2events s2stop =
      runSessionFrom [] s2events s2stop ∧
    (capturedFrags s2events ≠ [] →
      (runSessionFrom (runSessionFrom s1buf s1events s1stop).buf s2events
          s2stop).uploads =
        (capturedFrags s2events).map chunkCall ++
          [⟨"recording_final.webm", (capturedFrags s2events).flatten⟩]) := by
  have h2 : runSessionFrom (runSessionFrom s1buf s1events s1stop).buf s2events
      s2stop = runSessionFrom [] s2events s2stop := by
    rw [runSessionFrom_buf]
  refine ⟨onstop_buf_empty outcome buf, h2, fun h => ?_⟩
  rw [h2]
  exact runSessionFrom_empty_spec s2events s2stop h

/-- C10 witness: concrete back-to-back sessions, the second seeing a fresh
buffer and finalizing only its own fragment. -/
theorem c10_buffer_cleared_witness :
    (onstop FetchOutcome.netError [[1]]).buf = [] ∧
    runSessionFrom
        (runSessionFrom [] [⟨some [9], FetchOutcome.netError⟩]
          FetchOutcome.netError).buf
        [⟨some [5], FetchOutcome.netError⟩] FetchOutcome.netError =
      runSessionFrom [] [⟨some [5], FetchOutcome.netError⟩] FetchOutcome.netError ∧
    (runSessionFrom
        (runSessionFrom [] [⟨some [9], FetchOutcome.netError⟩]
          FetchOutcome.netError).buf
        [⟨some [5], FetchOutcome.netError⟩] FetchOutcome.netError).uploads =
      (capturedFrags [⟨some [5], FetchOutcome.netError⟩]).map chunkCall ++
        [⟨"recording_final.webm",
          (capturedFrags [⟨some [5], FetchOutcome.netError⟩]).flatten⟩] := by
  obtain ⟨a, b, c⟩ := c10_buffer_cleared FetchOutcome.netError [[1]] []
    [⟨some [9], FetchOutcome.netError⟩] [⟨some [5], FetchOutcome.netError⟩]
    FetchOutcome.netError FetchOutcome.netError
  exact ⟨a, b, c (by decide)⟩

/-- C2: on a successful poll whose coalesced latest-reply text is
non-empty, the handler sets the visible response text to that text, sets
the speaking indicator true, and schedules the indicator to be cleared
after a fixed delay of m milliseconds with 1800 at most m and m at most
2000; a poll whose coalesced reply text is empty leaves the state unchanged
and emits nothing. -/
theorem c2_poll_reply_handling (lr r : String) (st : UIState) :
    ((if strTruthy lr then lr else r) ≠ "" →
      ∃ m, pollTick (PollOutcome.ok lr r) st =
          (⟨if strTruthy lr then lr else r, true⟩,
            [UIEvent.setResponse (if strTruthy lr then lr else r),
              UIEvent.setSpeaking true, UIEvent.scheduleSpeakingClear m]) ∧
        1800 ≤ m ∧ m ≤ 2000) ∧
    ((if strTruthy lr then lr else r) = "" →
      pollTick (PollOutcome.ok lr r) st = (st, [])) := by
  constructor
  · intro h
    refine ⟨1800, ?_, le_refl 1800, by norm_num⟩
    simp only [pollTick, strTruthy]
    rw [if_pos (by simpa [strTruthy] using h)]
  · intro h
    simp only [pollTick, strTruthy]
    rw [if_neg (by simpa [strTruthy] using h)]

/-- C2 witness: a concrete non-empty reply updates state and schedules the
1800 millisecond clear, and a concrete empty reply changes nothing. -/
theorem c2_poll_reply_handling_witness :
    (∃ m, pollTick (PollOutcome.ok "Help is on the way." "") ⟨"", false⟩ =
        (⟨if strTruthy "Help is on the way." then "Help is on the way." else "",
            true⟩,
          [UIEvent.setResponse
              (if strTruthy "Help is on the way." then "Help is on the way."
                else ""),
            UIEvent.setSpeaking true, UIEvent.scheduleSpeakingClear m]) ∧
      1800 ≤ m ∧ m ≤ 2000) ∧
    pollTick (PollOutcome.ok "" "") ⟨"hi", true⟩ = (⟨"hi", true⟩, []) :=
  ⟨(c2_poll_reply_handling "Help is on the way." "" ⟨"", false⟩).1 (by decide),
    (c2_poll_reply_handling "" "" ⟨"hi", true⟩).2 (by decide)⟩

/-- C3: a failed poll tick is absorbed inside that tick: the embedded
handler is total, it leaves the UI state unchanged and emits no event on
every failure outcome, and the polling loop on a list beginning with the
failed tick continues exactly as the loop on the remaining ticks, so the
next tick is still attempted. -/
theorem c3_poll_failure_absorbed (o : PollOutcome) (rest : List PollOutcome)
    (st : UIState) (h : isPollFailure o = true) :
    pollTick o st = (st, []) ∧
    pollLoop (o :: rest) st = pollLoop rest st := by
  have h1 : pollTick o st = (st, []) := by
    cases o with
    | netError => rfl
    | httpError s => rfl
    | badJson => rfl
    | ok lr r => simp [isPollFailure] at h
  exact ⟨h1, by simp [pollLoop, h1]⟩

/-- C3 witness: a concrete failed tick before a successful tick leaves the
loop identical to the loop without it. -/
theorem c3_poll_failure_absorbed_witness :
    pollTick PollOutcome.netError ⟨"", false⟩ = (⟨"", false⟩, []) ∧
    pollLoop [PollOutcome.netError, PollOutcome.ok "ok" ""] ⟨"", false⟩ =
      pollLoop [PollOutcome.ok "ok" ""] ⟨"", false⟩ :=
  c3_poll_failure_absorbed PollOutcome.netError [PollOutcome.ok "ok" ""]
    ⟨"", false⟩ rfl

/-- C8: two consecutive successful polls carrying the same non-empty reply
text set the visible response text on both polls and re-trigger the
speaking indicator on both polls; identical repeated text is not
deduplicated, as the emitted event trace shows two full update rounds. -/
theorem c8_duplicate_replies_not_deduplicated (s : String) (st : UIState)
    (h : s ≠ "") :
    pollLoop [PollOutcome.ok s "", PollOutcome.ok s ""] st =
      (⟨s, true⟩,
        [UIEvent.setResponse s, UIEvent.setSpeaking true,
          UIEvent.scheduleSpeakingClear 1800, UIEvent.setResponse s,
          UIEvent.setSpeaking true, UIEvent.scheduleSpeakingClear 1800]) := by
  have hs : strTruthy s = true := by simpa [strTruthy] using h
  have htick : ∀ st2 : UIState, pollTick (PollOutcome.ok s "") st2 =
      (⟨s, true⟩,
        [UIEvent.setResponse s, UIEvent.setSpeaking true,
          UIEvent.scheduleSpeakingClear 1800]) := by
    intro st2
    simp only [pollTick]
    rw [if_pos hs, if_pos (by simpa [strTruthy, hs])]
  simp [pollLoop, htick]

/-- C8 witness: the duplicated reply from the specification scenario is
applied twice and both update rounds appear in the trace. -/
theorem c8_duplicate_replies_not_deduplicated_witness :
    pollLoop
        [PollOutcome.ok "Stay calm, help is on the way." "",
          PollOutcome.ok "Stay calm, help is on the way." ""] ⟨"", false⟩ =
      (⟨"Stay calm, help is on the way.", true⟩,
        [UIEvent.setResponse "Stay calm, help is on the way.",
          UIEvent.setSpeaking true, UIEvent.scheduleSpeakingClear 1800,
          UIEvent.setResponse "Stay calm, help is on the way.",
          UIEvent.setSpeaking true, UIEvent.scheduleSpeakingClear 1800]) :=
  c8_duplicate_replies_not_deduplicated "Stay calm, help is on the way."
    ⟨"", false⟩ (by decide)

/-- C5 counterexample: a cached record exists whose city, region and
country are all empty; the join of its non-empty fields is the empty
string, yet the displayed location is the remote lookup's result (here the
city Springfield), because the code falls through to the remote branch when
the parts list is empty. -/
theorem c5_counterexample :
    String.intercalate ", "
        (geoParts (effectiveGeo (⟨none, emptyGeo⟩ : IpInfo))) = "" ∧
    resolveLocation (CachedRaw.value ⟨none, emptyGeo⟩)
        (RemoteOutcome.ok ⟨some ⟨"Springfield", "", "", "", ""⟩, none, "", ""⟩) =
      "Springfield" ∧
    ("Springfield" : String) ≠ "" := by
  refine ⟨rfl, rfl, by decide⟩

/-- C5 (amended): for every cached geolocation record with at least one of
city, region, country non-empty, the displayed location string is the
comma-separated join of exactly the non-empty coalesced values among city,
region and country, in that order, with empty fields omitted entirely and
the remote outcome irrelevant; in particular a record with only city and
country populated yields the city and the country joined by a single
comma.  A cached record with none of the three populated falls through to
the remote lookup instead. -/
theorem c5_cached_location_join (info : IpInfo) (remote : RemoteOutcome)
    (c k : String) (h : geoParts (effectiveGeo info) ≠ [])
    (hc : c ≠ "") (hk : k ≠ "") :
    resolveLocation (CachedRaw.value info) remote =
      String.intercalate ", " (geoParts (effectiveGeo info)) ∧
    resolveLocation (CachedRaw.value ⟨none, ⟨c, "", "", "", k⟩⟩) remote =
      c ++ ", " ++ k := by
  constructor
  · simp only [resolveLocation]
    rw [if_pos (by simpa [List.length_eq_zero] using h)]
  · have hparts : geoParts (effectiveGeo (⟨none, ⟨c, "", "", "", k⟩⟩ : IpInfo)) =
        [c, k] := by
      simp [geoParts, effectiveGeo, cityOf, regionOf, countryOf, strTruthy,
        hc, hk]
    simp only [resolveLocation, hparts]
    rw [if_pos (by simp)]
    rfl

/-- C5 witness: a concrete cached record with only city and country
populated displays them joined by a single comma, with no artifact from the
empty region. -/
theorem c5_cached_location_join_witness :
    resolveLocation
        (CachedRaw.value ⟨none, ⟨"Amherst", "", "", "", "USA"⟩⟩)
        RemoteOutcome.netError =
      String.intercalate ", "
        (geoParts (effectiveGeo
          (⟨none, ⟨"Amherst", "", "", "", "USA"⟩⟩ : IpInfo))) ∧
    resolveLocation
        (CachedRaw.value ⟨none, ⟨"Amherst", "", "", "", "USA"⟩⟩)
        RemoteOutcome.netError =
      "Amherst" ++ ", " ++ "USA" :=
  c5_cached_location_join ⟨none, ⟨"Amherst", "", "", "", "USA"⟩⟩
    RemoteOutcome.netError "Amherst" "USA" (by decide) (by decide) (by decide)

/-- C6 counterexample: no cache exists and the lookup succeeds with a
payload carrying no descriptive fields and empty IP fields; the raw public
IP string is empty, yet the displayed result is the fixed string Unknown
location, not that raw public IP string. -/
theorem c6_counterexample :
    payloadIp ⟨none, none, "", ""⟩ = "" ∧
    resolveLocation CachedRaw.absent (RemoteOutcome.ok ⟨none, none, "", ""⟩) =
      "Unknown location" ∧
    ("Unknown location" : String) ≠ "" := by
  refine ⟨rfl, rfl, by decide⟩

/-- C6 (amended): location resolution follows the precedence cached value,
then live remote lookup, then raw public IP, then sentinel: when no cache
exists (or the cached value is unusable) and the remote lookup fails, the
result is exactly the string Location unavailable, and the embedded
resolver is a total function so no exception reaches the UI; when the
lookup succeeds but carries no descriptive fields, the result is the raw
public IP string when that string is non-empty, and the fixed string
Unknown location otherwise. -/
theorem c6_location_precedence (remote : RemoteOutcome) (p : IpPayload)
    (hfail : remoteIsFailure remote = true) :
    resolveLocation CachedRaw.absent remote = "Location unavailable" ∧
    resolveLocation CachedRaw.malformed remote = "Location unavailable" ∧
    (geoParts (payloadGeo p) = [] →
      resolveLocation CachedRaw.absent (RemoteOutcome.ok p) =
        (if strTruthy (payloadIp p) then payloadIp p else "Unknown location")) := by
  have hrem : remoteBranch remote = "Location unavailable" := by
    cases remote with
    | netError => rfl
    | httpError s => rfl
    | badJson => rfl
    | ok q => simp [remoteIsFailure] at hfail
  refine ⟨hrem, hrem, fun hgeo => ?_⟩
  simp [resolveLocation, remoteBranch, hgeo]

/-- C6 witness: a concrete failing lookup yields the sentinel, and a
concrete empty-geolocation payload with a populated public IP yields that
raw IP. -/
theorem c6_location_precedence_witness :
    resolveLocation CachedRaw.absent RemoteOutcome.netError =
      "Location unavailable" ∧
    resolveLocation CachedRaw.malformed RemoteOutcome.netError =
      "Location unavailable" ∧
    resolveLocation CachedRaw.absent
        (RemoteOutcome.ok ⟨none, none, "203.0.113.9", ""⟩) =
      (if strTruthy (payloadIp ⟨none, none, "203.0.113.9", ""⟩) then
        payloadIp ⟨none, none, "203.0.113.9", ""⟩
      else "Unknown location") := by
  obtain ⟨a, b, c⟩ := c6_location_precedence RemoteOutcome.netError
    ⟨none, none, "203.0.113.9", ""⟩ rfl
  exact ⟨a, b, c (by decide)⟩

/-- C7 counterexample: even when the stop-listening request succeeds, the
end-call handler's action trace contains no stop of the local recording:
it only issues the stop-listening request and returns the UI to idle, so
the claimed step of stopping the local recording never occurs in the
end-call sequence. -/
theorem c7_counterexample :
    handleEnd (FetchOutcome.ok "" "") =
      [EndAction.stopListeningRequest, EndAction.uiIdle] ∧
    EndAction.stopLocalRecording ∉ handleEnd (FetchOutcome.ok "" "") ∧
    EndAction.stopLocalRecording ∉ handleEnd FetchOutcome.netError := by
  refine ⟨rfl, by decide, by decide⟩

/-- C7 (amended): ending the call performs the deterministic sequence of a
best-effort stop-listening request to the backend followed by the
transition of the UI back to idle, and the transition occurs for every
outcome of the request, failures included; the end-call handler does not
stop the local recording — only the separate stop-recording control does,
whenever the recorder exists and is not already inactive. -/
theorem c7_end_call_sequence (stopOutcome : FetchOutcome) (s : RecorderState) :
    handleEnd stopOutcome = [EndAction.stopListeningRequest, EndAction.uiIdle] ∧
    EndAction.uiIdle ∈ handleEnd stopOutcome ∧
    EndAction.stopLocalRecording ∉ handleEnd stopOutcome ∧
    (s ≠ RecorderState.inactive →
      stopRecording (some s) = ([EndAction.stopLocalRecording], false)) := by
  have htrace : handleEnd stopOutcome =
      [EndAction.stopListeningRequest, EndAction.uiIdle] := rfl
  refine ⟨htrace, ?_, ?_, fun h => ?_⟩
  · rw [htrace]; decide
  · rw [htrace]; decide
  · simp [stopRecording, h]

/-- C7 witness: a concrete failing stop-listening request still ends with
the UI transition, and the stop-recording control stops an active
recorder. -/
theorem c7_end_call_sequence_witness :
    handleEnd FetchOutcome.netError =
      [EndAction.stopListeningRequest, EndAction.uiIdle] ∧
    EndAction.uiIdle ∈ handleEnd FetchOutcome.netError ∧
    EndAction.stopLocalRecording ∉ handleEnd FetchOutcome.netError ∧
    stopRecording (some RecorderState.recording) =
      ([EndAction.stopLocalRecording], false) := by
  obtain ⟨a, b, c, d⟩ := c7_end_call_sequence FetchOutcome.netError
    RecorderState.recording
  exact ⟨a, b, c, d (by decide)⟩

end ResQ
